import Mathlib

/-!
Verification of the HerAI message-processing pipeline (src/main.py and
src/utils/llm_config.py).

The Python source is shallowly embedded: pure helpers become Lean
functions over `List Char`/`String`; the pipeline orchestrator
`HerAI.process_message` is embedded as a pure function parameterised by a
record of collaborator functions (mood detector, memory agent, romantic
agent, surprise agent, safety agent), and every collaborator call is
recorded in an explicit event trace so that invariants about which
collaborators run, in which order and with which arguments can be stated.
-/

namespace HerAI

/-- Here `isPre pat l` models Python prefix testing: `pat` is a prefix of `l`. -/
def isPre : List Char → List Char → Bool
  | [], _ => true
  | _ :: _, [] => false
  | a :: ps, b :: l => a = b && isPre ps l

/-- Here `containsSub pat l` models the Python expression `pat in l`
(substring containment, an empty pattern always matches). -/
def containsSub (pat : List Char) : List Char → Bool
  | [] => isPre pat []
  | c :: rest => isPre pat (c :: rest) || containsSub pat rest

/-- Python `pat in s` on strings. -/
def strContains (s pat : String) : Bool :=
  containsSub pat.data s.data

/-- Python `str.lower` (ASCII case folding, which covers every message the
source manipulates). -/
def strLower (s : String) : String :=
  ⟨s.data.map Char.toLower⟩

/-- One step of Python `str.replace`: replace all non-overlapping
occurrences of `pat` left to right, with an explicit fuel argument for
structural recursion (`fuel = l.length` suffices since each step consumes
at least one character when `pat` is non-empty). -/
def replaceFuel (pat repl : List Char) : Nat → List Char → List Char
  | _, [] => []
  | 0, l => l
  | fuel + 1, c :: rest =>
    if isPre pat (c :: rest) then
      repl ++ replaceFuel pat repl fuel (List.drop pat.length (c :: rest))
    else
      c :: replaceFuel pat repl fuel rest

/-- Python `s.replace(pat, repl)` for non-empty `pat`. -/
def strReplace (s pat repl : String) : String :=
  ⟨replaceFuel pat.data repl.data s.data.length s.data⟩

/-- Python whitespace characters stripped by `str.strip()` (the subset
occurring in chat messages). -/
def isWs (c : Char) : Bool :=
  c = ' ' || c = '\t' || c = '\n' || c = '\r'

/-- Python `str.strip()`: drop leading and trailing whitespace. -/
def strStrip (s : String) : String :=
  ⟨((s.data.dropWhile isWs).reverse.dropWhile isWs).reverse⟩

/-! ## Intent classifier (`HerAI._detect_task_type`, src/main.py lines 113-134) -/

/-- Phrase list of the `poem` rule. -/
def poemPhrases : List String := ["write a poem", "poem for", "make a poem"]

/-- Phrase list of the `joke` rule. -/
def jokePhrases : List String :=
  ["write a joke", "tell me a joke", "joke about yamraj", "make fun of yourself"]

/-- Phrase list of the `story` rule. -/
def storyPhrases : List String := ["write a story", "tell me a story"]

/-- Phrase list of the `letter` rule. -/
def letterPhrases : List String := ["write a letter", "love letter"]

/-- Phrase list of the `date_plan` rule. -/
def datePlanPhrases : List String := ["plan a date", "date idea", "what should we do"]

/-- Phrase list of the `good_morning` rule. -/
def goodMorningPhrases : List String := ["good morning", "morning"]

/-- Phrase list of the `good_night` rule. -/
def goodNightPhrases : List String := ["good night", "night"]

/-- Phrase list of the `apology` rule. -/
def apologyPhrases : List String := ["sorry", "apologize", "my bad"]

/-- Python `any(word in m for word in phrases)`. -/
def matchesAny (phrases : List String) (m : String) : Bool :=
  phrases.any (fun p => strContains m p)

/-- The classifier `HerAI._detect_task_type`: lower-case the message and test the eight
phrase-list rules with an if/elif chain, returning the first matching tag. -/
def detect_task_type (message : String) : Option String :=
  let m := strLower message
  if matchesAny poemPhrases m then some "poem"
  else if matchesAny jokePhrases m then some "joke"
  else if matchesAny storyPhrases m then some "story"
  else if matchesAny letterPhrases m then some "letter"
  else if matchesAny datePlanPhrases m then some "date_plan"
  else if matchesAny goodMorningPhrases m then some "good_morning"
  else if matchesAny goodNightPhrases m then some "good_night"
  else if matchesAny apologyPhrases m then some "apology"
  else none

/-- The rule table in the spec's fixed order, each tag with its phrase list. -/
def ruleOrder : List (String × List String) :=
  [("poem", poemPhrases), ("joke", jokePhrases), ("story", storyPhrases),
   ("letter", letterPhrases), ("date_plan", datePlanPhrases),
   ("good_morning", goodMorningPhrases), ("good_night", goodNightPhrases),
   ("apology", apologyPhrases)]

/-- First-match lookup over an ordered rule table. -/
def firstMatch : List (String × List String) → String → Option String
  | [], _ => none
  | (tag, ps) :: rest, m => if matchesAny ps m then some tag else firstMatch rest m

/-- Modelled from the spec's words for the refinement claim C1: lower-case the
message and return the tag of the first rule in the fixed order whose phrase
list has a substring of the message, `none` if no rule matches. -/
def classifySpec (message : String) : Option String :=
  firstMatch ruleOrder (strLower message)

/-! ## Data model of the pipeline -/

/-- Result of `MoodDetector.detect`: a mood label and a display glyph. -/
structure MoodResult where
  mood : String
  emoji : String

/-- Result of `SafetyAgent.validate_and_fix`: rewritten text, safety flag and
numeric score. -/
structure SafetyResult where
  fixed_text : String
  fixed_safe : Bool
  fixed_score : Nat

/-- Structured plan returned by `SurpriseAgent.plan_virtual_date`. -/
structure DatePlan where
  title : String
  description : String
  steps : List String
  suggestions : List String

/-- The record returned by `HerAI.process_message`. -/
structure ProcessingResult where
  response : String
  mood : String
  mood_emoji : String
  safe : Bool
  safety_score : Nat
  task_type : Option String

/-- The external collaborators of the pipeline (mood detector, memory agent,
romantic agent, surprise agent, safety agent), abstracted as pure functions:
their internals are out of scope, only the interface the pipeline uses. -/
structure Collaborators where
  detectMood : String → MoodResult
  retrieveMemories : String → Nat → List String
  generateMessage : String → String → List String → String
  generatePoem : String → String
  generateJoke : String → String
  planVirtualDate : String → DatePlan
  goodMorningText : String
  goodNightText : String
  generateApology : String → String
  handleTaskGeneric : String → String → String
  validateAndFix : String → SafetyResult

/-- One collaborator call made while processing a message, with the arguments
it was invoked with; `process_message` returns the calls in order. -/
inductive Event where
  | detectMood (msg : String)
  | retrieveMemories (query : String) (k : Nat)
  | generateMessage (mood ctx : String) (memories : List String)
  | generatePoem (theme : String)
  | generateJoke (msg : String)
  | planVirtualDate (msg : String)
  | generateGoodMorning
  | generateGoodNight
  | generateApology (ctx : String)
  | handleTaskGeneric (msg tag : String)
  | validateAndFix (text : String)
deriving DecidableEq

/-! ## Task dispatcher (`HerAI._handle_task`, src/main.py lines 136-172) -/

/-- Theme selection of the `poem` branch of `_handle_task`: default `love`,
`missing` if the lower-cased message contains `miss`, else `appreciation` if
it contains `thank` or `appreciate`. -/
def poemTheme (message : String) : String :=
  if strContains (strLower message) "miss" then "missing"
  else if strContains (strLower message) "thank" || strContains (strLower message) "appreciate" then
    "appreciation"
  else "love"

/-- Numbered step lines of the date-plan rendering, Python
`for i, step in enumerate(date_plan['steps'], 1): response += f"{i}. {step}\n"`. -/
def renderSteps : Nat → List String → String
  | _, [] => ""
  | i, step :: rest => toString i ++ ". " ++ step ++ "\n" ++ renderSteps (i + 1) rest

/-- The date-plan rendering of `_handle_task`'s `date_plan` branch. -/
def renderDatePlan (p : DatePlan) : String :=
  let base := p.title ++ "\n\n" ++ p.description ++ "\n\n" ++
    "Here's how we can do it:\n" ++ renderSteps 1 p.steps
  match p.suggestions with
  | [] => base
  | s :: _ => base ++ "\n💡 Tip: " ++ s

/-- Context passed to the apology generator: Python
`message.replace('sorry', '').replace('apologize', '').strip()`. -/
def apologyContext (message : String) : String :=
  strStrip (strReplace (strReplace message "sorry" "") "apologize" "")

/-- The dispatcher `HerAI._handle_task`: dispatch on the task tag, returning the draft
response together with the collaborator call it made. The `mood` argument is
accepted but unused, as in the source. -/
def handle_task (C : Collaborators) (message task_type mood : String) :
    String × List Event :=
  if task_type = "poem" then
    (C.generatePoem (poemTheme message), [Event.generatePoem (poemTheme message)])
  else if task_type = "joke" then
    (C.generateJoke message, [Event.generateJoke message])
  else if task_type = "date_plan" then
    (renderDatePlan (C.planVirtualDate message), [Event.planVirtualDate message])
  else if task_type = "good_morning" then
    (C.goodMorningText, [Event.generateGoodMorning])
  else if task_type = "good_night" then
    (C.goodNightText, [Event.generateGoodNight])
  else if task_type = "apology" then
    (C.generateApology (apologyContext message), [Event.generateApology (apologyContext message)])
  else
    (C.handleTaskGeneric message task_type, [Event.handleTaskGeneric message task_type])

/-! ## Pipeline orchestrator (`HerAI.process_message`, src/main.py lines 55-111) -/

/-- The moods for which memories are retrieved in the no-task branch. -/
def reactiveMoods : List String := ["sad", "stressed", "angry", "romantic"]

/-- The orchestrator `HerAI.process_message`: detect the mood, detect a task tag, either
dispatch the task or retrieve memories (for reactive moods) and generate a
response, then pass the draft through the safety agent. Returns the result
record and the ordered trace of collaborator calls. -/
def process_message (C : Collaborators) (message : String) :
    ProcessingResult × List Event :=
  let mr := C.detectMood message
  let task_type := detect_task_type message
  let (response, midEvents) :=
    match task_type with
    | some t => handle_task C message t mr.mood
    | none =>
      let (memories, memEvents) :=
        if mr.mood ∈ reactiveMoods then
          (C.retrieveMemories message 2, [Event.retrieveMemories message 2])
        else
          ([], [])
      (C.generateMessage mr.mood message memories,
        memEvents ++ [Event.generateMessage mr.mood message memories])
  let sr := C.validateAndFix response
  ({ response := sr.fixed_text, mood := mr.mood, mood_emoji := mr.emoji,
     safe := sr.fixed_safe, safety_score := sr.fixed_score, task_type := task_type },
   Event.detectMood message :: (midEvents ++ [Event.validateAndFix response]))

/-! ## LLM configuration (src/utils/llm_config.py) -/

/-- The constructed `ChatGroq` handle (only the fields the source sets). -/
structure ChatGroq where
  model : String
  api_key : String

/-- The ambient environment of `llm_config.py`: whether importing
`langchain_groq` succeeded, the `GROQ_API_KEY` environment variable, and the behaviour
of the `ChatGroq` constructor — `none` models the constructor raising, which
`LLMConfig._initialize_llm` catches and turns into a `None` handle. -/
structure GroqEnv where
  groq_available : Bool
  env_api_key : Option String
  chatGroqBuild : String → Option ChatGroq

/-- State of an `LLMConfig` object after `__init__`. -/
structure LLMConfig where
  api_key : Option String
  llm : Option ChatGroq

/-- Python `LLMConfig.__init__` followed by the guarded `_initialize_llm` call: the
key falls back to the environment, and the handle is built only when groq
was imported and a key is present; a constructor failure leaves the handle
`none` (the `except` branch) instead of propagating. -/
def LLMConfig.init (env : GroqEnv) (api_key : Option String) : LLMConfig :=
  let key := match api_key with
    | some k => some k
    | none => env.env_api_key
  { api_key := key,
    llm := match key with
      | some k => if env.groq_available then env.chatGroqBuild k else none
      | none => none }

/-- Python `get_llm_instance` on its first call (the singleton is `None` at process
start, so the config is constructed and its handle returned). -/
def get_llm_instance (env : GroqEnv) (api_key : Option String) : Option ChatGroq :=
  (LLMConfig.init env api_key).llm

/-- The `use_llm` flag computed by `HerAI.__init__`:
`self.llm is not None`. -/
def herAI_use_llm (env : GroqEnv) (api_key : Option String) : Bool :=
  (get_llm_instance env api_key).isSome

/-! ## Interactive loop (`HerAI.chat`, src/main.py lines 174-204) -/

/-- What one iteration of the `chat` loop does with the line it read. -/
inductive ChatAction where
  | skipLine
  | quitSession
  | processLine (msg : String)
deriving DecidableEq

/-- One iteration of `HerAI.chat`: strip the line; an empty result skips the
iteration (`continue`), a terminator phrase ends the session, anything else
is handed to `process_message`. -/
def chat_step (line : String) : ChatAction :=
  let user_input := strStrip line
  if user_input = "" then ChatAction.skipLine
  else if strLower user_input ∈ ["quit", "exit", "bye"] then ChatAction.quitSession
  else ChatAction.processLine user_input

/-! ## Event-kind predicates used to state the trace invariants -/

/-- Recognises a memory-agent retrieval call. -/
def isMemEvent : Event → Bool
  | Event.retrieveMemories _ _ => true
  | _ => false

/-- Recognises a mood-detector call. -/
def isMoodEvent : Event → Bool
  | Event.detectMood _ => true
  | _ => false

/-- Recognises a safety-agent call. -/
def isSafetyEvent : Event → Bool
  | Event.validateAndFix _ => true
  | _ => false

/-- Recognises a general romantic-response generation call. -/
def isGenMsgEvent : Event → Bool
  | Event.generateMessage _ _ _ => true
  | _ => false

/-- Recognises a poem-generator call. -/
def isPoemEvent : Event → Bool
  | Event.generatePoem _ => true
  | _ => false

/-- Recognises an apology-generator call. -/
def isApologyEvent : Event → Bool
  | Event.generateApology _ => true
  | _ => false

/-- The task dispatcher makes exactly one collaborator call, and that call is
never a mood-detection, memory-retrieval, general-generation or
safety-filter call. -/
theorem handle_task_single_event (C : Collaborators) (m t mood : String) :
    ∃ e, (handle_task C m t mood).2 = [e] ∧ isMemEvent e = false ∧
      isMoodEvent e = false ∧ isSafetyEvent e = false ∧ isGenMsgEvent e = false := by
  unfold handle_task
  repeat' split
  all_goals exact ⟨_, rfl, rfl, rfl, rfl, rfl⟩

theorem isMoodEvent_detectMood (m : String) : isMoodEvent (Event.detectMood m) = true := rfl

theorem isSafetyEvent_validateAndFix (t : String) :
    isSafetyEvent (Event.validateAndFix t) = true := rfl

theorem isMemEvent_detectMood (m : String) : isMemEvent (Event.detectMood m) = false := rfl

theorem isMemEvent_validateAndFix (t : String) :
    isMemEvent (Event.validateAndFix t) = false := rfl

theorem isMoodEvent_validateAndFix (t : String) :
    isMoodEvent (Event.validateAndFix t) = false := rfl

theorem isSafetyEvent_detectMood (m : String) :
    isSafetyEvent (Event.detectMood m) = false := rfl

/-- A concrete fallback instantiation of the collaborators, used to evaluate
the pipeline on sample messages. -/
def defaultCollab : Collaborators where
  detectMood := fun _ => ⟨"neutral", "🙂"⟩
  retrieveMemories := fun _ _ => []
  generateMessage := fun _ _ _ => ""
  generatePoem := fun theme => theme
  generateJoke := fun m => m
  planVirtualDate := fun _ => ⟨"", "", [], []⟩
  goodMorningText := ""
  goodNightText := ""
  generateApology := fun c => c
  handleTaskGeneric := fun m _ => m
  validateAndFix := fun t => ⟨t, true, 100⟩

/-! ## Claims -/

/-- C1: the intent classifier lower-cases the message and returns the tag of
the first rule, in the fixed order poem, joke, story, letter, date_plan,
good_morning, good_night, apology, whose phrase list has a phrase contained
in the message as a substring, and `none` when no rule matches; in
particular a message containing both "good morning" and "sorry" resolves to
`good_morning`, the earlier-checked rule. -/
theorem C1_intent_classifier_first_match :
    (∀ msg, detect_task_type msg = classifySpec msg) ∧
    detect_task_type "good morning, sorry" = some "good_morning" := by
  constructor
  · intro msg
    simp [detect_task_type, classifySpec, ruleOrder, firstMatch]
  · decide

/-- C2: the memory agent is invoked if and only if no task tag was detected
and the detected mood lies in {sad, stressed, angry, romantic}, and the one
retrieval it then performs asks for exactly `k = 2` snippets of the message;
in particular, when a task is detected, no memory retrieval happens. -/
theorem C2_memory_retrieval_guard (C : Collaborators) (message : String) :
    ((process_message C message).2).filter isMemEvent =
      (if detect_task_type message = none ∧ (C.detectMood message).mood ∈ reactiveMoods
       then [Event.retrieveMemories message 2] else []) := by
  cases h : detect_task_type message with
  | some t =>
    obtain ⟨e, he, hmem, -, -, -⟩ :=
      handle_task_single_event C message t (C.detectMood message).mood
    simp [process_message, h, he, List.filter_cons, hmem,
      isMemEvent_detectMood, isMemEvent_validateAndFix]
  | none =>
    by_cases hm : (C.detectMood message).mood ∈ reactiveMoods <;>
      simp [process_message, h, hm, isMemEvent]

/-- C3: every processed message triggers exactly one mood-detection call —
the first collaborator call, on the raw message — and exactly one
safety-filter call, on the draft response of whichever branch ran; the
result's response is the safety filter's rewritten text and its safety flag
and score are the filter's flag and score. -/
theorem C3_one_mood_one_safety (C : Collaborators) (message : String) :
    ((process_message C message).2).filter isMoodEvent = [Event.detectMood message] ∧
    ((process_message C message).2).head? = some (Event.detectMood message) ∧
    ∃ draft,
      ((process_message C message).2).filter isSafetyEvent = [Event.validateAndFix draft] ∧
      (process_message C message).1.response = (C.validateAndFix draft).fixed_text ∧
      (process_message C message).1.safe = (C.validateAndFix draft).fixed_safe ∧
      (process_message C message).1.safety_score = (C.validateAndFix draft).fixed_score := by
  cases h : detect_task_type message with
  | some t =>
    obtain ⟨e, he, -, hmood, hsafe, -⟩ :=
      handle_task_single_event C message t (C.detectMood message).mood
    refine ⟨?_, ?_, (handle_task C message t (C.detectMood message).mood).1, ?_, ?_, ?_, ?_⟩ <;>
      simp [process_message, h, he, List.filter_cons, hmood, hsafe,
        isMoodEvent_detectMood, isMoodEvent_validateAndFix,
        isSafetyEvent_detectMood, isSafetyEvent_validateAndFix]
  | none =>
    by_cases hm : (C.detectMood message).mood ∈ reactiveMoods
    · refine ⟨?_, ?_, C.generateMessage (C.detectMood message).mood message
        (C.retrieveMemories message 2), ?_, ?_, ?_, ?_⟩ <;>
        simp [process_message, h, hm, isMoodEvent, isSafetyEvent]
    · refine ⟨?_, ?_, C.generateMessage (C.detectMood message).mood message [], ?_, ?_, ?_, ?_⟩ <;>
        simp [process_message, h, hm, isMoodEvent, isSafetyEvent]

/-- C4: processing "I'm sorry, my bad" detects the `apology` task, and the
apology generator receives the message with "sorry" removed and surrounding
whitespace trimmed, namely the context "I'm , my bad" (no surrounding
punctuation or whitespace remains to trim on this input); the full trace is
mood detection, the apology-generator call, then the safety check. -/
theorem C4_apology_message (C : Collaborators) :
    (process_message C "I'm sorry, my bad").1.task_type = some "apology" ∧
    (process_message C "I'm sorry, my bad").2 =
      [Event.detectMood "I'm sorry, my bad",
       Event.generateApology "I'm , my bad",
       Event.validateAndFix (C.generateApology "I'm , my bad")] :=
  ⟨rfl, rfl⟩

/-- C5: the date-plan dispatcher renders the planner's structured output as
title, blank line, description, blank line, the fixed lead-in, the steps
numbered from 1 one per line each prefixed with its index and ". ", and a
tip line holding the first suggestion, omitted when `suggestions` is empty;
on title "T", description "D", steps ["A","B"], suggestions ["S"] this is
exactly the string of the claim. -/
theorem C5_date_plan_rendering :
    renderDatePlan ⟨"T", "D", ["A", "B"], ["S"]⟩ =
      "T\n\nD\n\nHere's how we can do it:\n1. A\n2. B\n\n💡 Tip: S" ∧
    renderDatePlan ⟨"T", "D", ["A", "B"], []⟩ =
      "T\n\nD\n\nHere's how we can do it:\n1. A\n2. B\n" ∧
    ∀ (C : Collaborators) (message mood : String),
      (handle_task C message "date_plan" mood).1 = renderDatePlan (C.planVirtualDate message) :=
  ⟨by decide, by decide, fun C message mood => rfl⟩

/-- C6: when a message is dispatched with the `poem` tag, the theme handed to
the poem generator is "missing" if the lower-cased message contains "miss",
else "appreciation" if it contains "thank" or "appreciate", else "love",
checked in that order. -/
theorem C6_poem_theme (C : Collaborators) (message : String)
    (h : detect_task_type message = some "poem") :
    ((process_message C message).2).filter isPoemEvent =
      [Event.generatePoem
        (if strContains (strLower message) "miss" then "missing"
         else if strContains (strLower message) "thank" ||
             strContains (strLower message) "appreciate" then "appreciation"
         else "love")] := by
  have hh : handle_task C message "poem" (C.detectMood message).mood =
      (C.generatePoem (poemTheme message), [Event.generatePoem (poemTheme message)]) := rfl
  simp [process_message, h, hh, isPoemEvent, poemTheme]

/-- Witness for C6 at the message "Write a poem for me about love", whose
theme resolves to "love". -/
theorem C6_poem_theme_witness :
    ((process_message defaultCollab "Write a poem for me about love").2).filter isPoemEvent =
      [Event.generatePoem
        (if strContains (strLower "Write a poem for me about love") "miss" then "missing"
         else if strContains (strLower "Write a poem for me about love") "thank" ||
             strContains (strLower "Write a poem for me about love") "appreciate"
           then "appreciation"
         else "love")] :=
  C6_poem_theme defaultCollab "Write a poem for me about love" (by decide)

/-- C7 counterexample: the message "sorry, good morning" lower-cases to a
string containing "sorry", yet the classifier assigns `good_morning`, not
`apology`, because the good_morning rule is checked earlier — so "for every
message whose lower-casing contains sorry or apologize the tag apology is
assigned" is false as stated. -/
theorem C7_counterexample :
    (detect_task_type "sorry, good morning" == some "apology") = false ∧
    strContains (strLower "sorry, good morning") "sorry" = true ∧
    detect_task_type "sorry, good morning" = some "good_morning" := by decide

/-- C7 (amended): for every message whose lower-casing contains "sorry" or
"apologize" and which matches none of the seven earlier rules, the tag
`apology` is assigned; stripping removes only the exact lower-case literal
substrings, so "I'm Sorry" is classified as apology while the capitalised
"Sorry" is not stripped — the apology generator receives "I'm Sorry"
unchanged. -/
theorem C7_apology_case_sensitivity :
    (∀ message,
      matchesAny poemPhrases (strLower message) = false →
      matchesAny jokePhrases (strLower message) = false →
      matchesAny storyPhrases (strLower message) = false →
      matchesAny letterPhrases (strLower message) = false →
      matchesAny datePlanPhrases (strLower message) = false →
      matchesAny goodMorningPhrases (strLower message) = false →
      matchesAny goodNightPhrases (strLower message) = false →
      (strContains (strLower message) "sorry" ||
        strContains (strLower message) "apologize") = true →
      detect_task_type message = some "apology") ∧
    detect_task_type "I'm Sorry" = some "apology" ∧
    (∀ C, ((process_message C "I'm Sorry").2).filter isApologyEvent =
      [Event.generateApology "I'm Sorry"]) := by
  refine ⟨?_, by decide, fun C => rfl⟩
  intro message h1 h2 h3 h4 h5 h6 h7 hs
  have hap : matchesAny apologyPhrases (strLower message) = true := by
    cases hx : strContains (strLower message) "sorry" with
    | true => simp [matchesAny, apologyPhrases, hx]
    | false =>
      rw [hx] at hs
      simp only [Bool.false_or] at hs
      simp [matchesAny, apologyPhrases, hs]
  simp [detect_task_type, h1, h2, h3, h4, h5, h6, h7, hap]

/-- Witness for C7 at the message "I'm Sorry". -/
theorem C7_apology_case_sensitivity_witness :
    detect_task_type "I'm Sorry" = some "apology" :=
  C7_apology_case_sensitivity.1 "I'm Sorry" (by decide) (by decide) (by decide)
    (by decide) (by decide) (by decide) (by decide) (by decide)

/-- C8: when no credential is available (no argument and no environment
variable), or the groq package is unavailable, or the `ChatGroq` constructor
fails (the caught-exception case, modelled as the builder returning `none`),
`get_llm_instance` returns `none` — it is a total function, reflecting that
construction failures are caught rather than propagated — and `HerAI`
continues with `use_llm` false. -/
theorem C8_llm_fallback (env : GroqEnv) (api_key : Option String)
    (h : (api_key = none ∧ env.env_api_key = none) ∨
         env.groq_available = false ∨ (∀ k, env.chatGroqBuild k = none)) :
    get_llm_instance env api_key = none ∧ herAI_use_llm env api_key = false := by
  have hnone : get_llm_instance env api_key = none := by
    rcases h with ⟨h1, h2⟩ | hg | hb
    · subst h1; simp [get_llm_instance, LLMConfig.init, h2]
    · cases api_key <;> cases henv : env.env_api_key <;>
        simp [get_llm_instance, LLMConfig.init, hg, henv]
    · cases api_key <;> cases henv : env.env_api_key <;>
        simp [get_llm_instance, LLMConfig.init, hb, henv]
  exact ⟨hnone, by simp [herAI_use_llm, hnone]⟩

/-- Witness for C8: groq importable but no key anywhere. -/
theorem C8_llm_fallback_witness :
    get_llm_instance ⟨true, none, fun _ => none⟩ none = none ∧
    herAI_use_llm ⟨true, none, fun _ => none⟩ none = false :=
  C8_llm_fallback ⟨true, none, fun _ => none⟩ none (Or.inl ⟨rfl, rfl⟩)

/-- C9: a line of the interactive loop that is empty after stripping
surrounding whitespace is skipped — the iteration neither quits nor invokes
the pipeline, and the loop reads the next line. -/
theorem C9_empty_line_skipped (line : String) (h : strStrip line = "") :
    chat_step line = ChatAction.skipLine := by
  simp [chat_step, h]

/-- Witness for C9 on a line of blanks. -/
theorem C9_empty_line_skipped_witness : chat_step "   " = ChatAction.skipLine :=
  C9_empty_line_skipped "   " (by decide)

/-- C10: the good_night phrase list contains the bare substring "night" and
the good_morning list the bare "morning": any message whose lower-casing
contains "night" and matches none of the six earlier rules is tagged
`good_night`, and any containing "morning" with no earlier match is tagged
`good_morning`; in particular "tonight" is tagged `good_night` and its
processing performs no memory retrieval and no general response
generation. -/
theorem C10_bare_greeting_substrings :
    (∀ message,
      matchesAny poemPhrases (strLower message) = false →
      matchesAny jokePhrases (strLower message) = false →
      matchesAny storyPhrases (strLower message) = false →
      matchesAny letterPhrases (strLower message) = false →
      matchesAny datePlanPhrases (strLower message) = false →
      matchesAny goodMorningPhrases (strLower message) = false →
      strContains (strLower message) "night" = true →
      detect_task_type message = some "good_night") ∧
    (∀ message,
      matchesAny poemPhrases (strLower message) = false →
      matchesAny jokePhrases (strLower message) = false →
      matchesAny storyPhrases (strLower message) = false →
      matchesAny letterPhrases (strLower message) = false →
      matchesAny datePlanPhrases (strLower message) = false →
      strContains (strLower message) "morning" = true →
      detect_task_type message = some "good_morning") ∧
    detect_task_type "tonight" = some "good_night" ∧
    (∀ C, ((process_message C "tonight").2).filter isMemEvent = [] ∧
          ((process_message C "tonight").2).filter isGenMsgEvent = []) := by
  refine ⟨?_, ?_, by decide, fun C => ⟨rfl, rfl⟩⟩
  · intro message h1 h2 h3 h4 h5 h6 hn
    have hgn : matchesAny goodNightPhrases (strLower message) = true := by
      simp [matchesAny, goodNightPhrases, hn]
    simp [detect_task_type, h1, h2, h3, h4, h5, h6, hgn]
  · intro message h1 h2 h3 h4 h5 hm
    have hgm : matchesAny goodMorningPhrases (strLower message) = true := by
      simp [matchesAny, goodMorningPhrases, hm]
    simp [detect_task_type, h1, h2, h3, h4, h5, hgm]

/-- Witness for C10 at the message "tonight". -/
theorem C10_bare_greeting_substrings_witness :
    detect_task_type "tonight" = some "good_night" :=
  C10_bare_greeting_substrings.1 "tonight" (by decide) (by decide) (by decide)
    (by decide) (by decide) (by decide) (by decide)

end HerAI
